import Mathlib

/-!
Shallow embedding of `custom_components/zte_router/api.py` (class `ZTERouterAPI`)
and verification of the specified properties of its session-authenticated
JSON-RPC client.

Modelling conventions:
* JSON values are modelled by the inductive type `Json`; JSON objects are
  association lists with unique keys (as produced by a JSON parser).
* Python truthiness, Python `==` against string/integer constants (including
  the `bool`/`int` identification `False == 0`, `True == 1`), Python `in`,
  and Python `str.upper()` are modelled by explicit functions (`pyTruthy`,
  `pyEqStr`, `pyEqInt`, `pyContains`, `pyUpper`).
* The result of one HTTP POST exchange (as observed by the client after
  `session.post` / `raise_for_status` / `response.json`) is a `TResp`:
  either `fail` (any transport-level exception: connection error, timeout,
  non-2xx status, undecodable body) or `ok body` with the decoded JSON body.
  Each operation takes the `TResp` for each POST it may perform.
* SHA-256 is an external collaborator of the code; it is a parameter
  `sha : String → String` standing for `lambda s, sha256(s.encode()).hexdigest()`.
* The client object's mutable state is the record `ClientState`.  The field
  `sent` is verification instrumentation (a ghost log of every JSON-RPC
  request object ever built by `_create_rpc_request`), used to state the
  request-id properties; the Python code has no such field.
* Exceptions raised inside a `try` block are modelled by the corresponding
  `except` branch's result; exceptions that escape an operation
  (`async_update` has no handler) are modelled with `Except Unit`.
-/

/-- JSON values.  Numbers are restricted to integers (every numeric literal
involved in the modelled code paths is an integer). -/
inductive Json where
  | null
  | bool (b : Bool)
  | num (n : Int)
  | str (s : String)
  | arr (elems : List Json)
  | obj (fields : List (String × Json))

namespace Json

/-- Python truthiness of a JSON value (`bool(x)`). -/
def pyTruthy : Json → Bool
  | .null => false
  | .bool b => b
  | .num n => n != 0
  | .str s => s != ""
  | .arr l => !l.isEmpty
  | .obj l => !l.isEmpty

/-- Python `==` between a decoded JSON value and a Python `str` constant. -/
def pyEqStr : Json → String → Bool
  | .str t, s => t == s
  | _, _ => false

/-- Python `==` between a decoded JSON value and a Python `int` constant.
Python identifies `bool` with `int`: `False == 0` and `True == 1`. -/
def pyEqInt : Json → Int → Bool
  | .num n, k => n == k
  | .bool b, k => (if b then (1 : Int) else 0) == k
  | _, _ => false

/-- Lookup of a key in a JSON object's field list (`dict` access). -/
def olookup (fields : List (String × Json)) (k : String) : Option Json :=
  (fields.find? (fun p => p.1 == k)).map (fun p => p.2)

/-- Python `key in value` for a string key.  `none` models a `TypeError`
(`in` applied to a non-container).  For dicts it is key membership, for
lists element equality, for strings substring containment. -/
def pyContains (j : Json) (s : String) : Option Bool :=
  match j with
  | .obj fields => some (fields.any (fun p => p.1 == s))
  | .arr l => some (l.any (fun x => pyEqStr x s))
  | .str t => some (decide (List.IsInfix s.data t.data))
  | _ => none

/-- Python `value[key]` for a string key: succeeds only on dicts containing
the key; on anything else (or a missing key) an exception is raised. -/
def getItem (j : Json) (k : String) : Option Json :=
  match j with
  | .obj fields => olookup fields k
  | _ => none

/-- Is this value a JSON string? -/
def isStr : Json → Bool
  | .str _ => true
  | _ => false

/-- Is this value a JSON object (Python dict)? -/
def isObj : Json → Bool
  | .obj _ => true
  | _ => false

/-- Is this value a JSON array (Python list)? -/
def isArr : Json → Bool
  | .arr _ => true
  | _ => false

/-- The keys of a JSON object, in order (empty for non-objects). -/
def keys : Json → List String
  | .obj fields => fields.map (fun p => p.1)
  | _ => []

end Json

/-- Python `str.upper()` on one character, for the ASCII range (every string
the client uppercases is an ASCII hex digest). -/
def pyCharUp (c : Char) : Char :=
  if 97 ≤ c.toNat ∧ c.toNat ≤ 122 then Char.ofNat (c.toNat - 32) else c

/-- Python `str.upper()` (ASCII model): uppercase every character. -/
def pyUpper (s : String) : String :=
  String.mk (s.data.map pyCharUp)

/-- Outcome of one HTTP POST as seen by the client: `fail` for any
transport-level exception (connection failure, timeout, non-2xx status from
`raise_for_status`, body that fails to decode), `ok body` for a decoded
JSON body. -/
inductive TResp where
  | fail
  | ok (body : Json)

/-- The unauthenticated session ID used by the router
(`UNAUTHENTICATED_SESSION` in `api.py`). -/
def UNAUTHENTICATED_SESSION : String := "00000000000000000000000000000000"

/-- Mutable state of a `ZTERouterAPI` instance (`__init__`).  `sent` is a
ghost log of every request object built by `_create_rpc_request`, added for
verification; it does not exist in the Python object. -/
structure ClientState where
  host : String
  password : Option String
  base_url : String
  session_id : Json
  request_id : Nat
  sent : List Json

/-- `ZTERouterAPI.__init__(host, password)`. -/
def mkClient (host : String) (password : Option String) : ClientState :=
  { host := host
    password := password
    base_url := "http://" ++ host ++ "/ubus/"
    session_id := Json.str UNAUTHENTICATED_SESSION
    request_id := 1
    sent := [] }

/-- `_create_rpc_request(namespace, method, params)`: build the JSON-RPC 2.0
request object and increment the per-client request id. -/
def createRpcRequest (st : ClientState) (ns meth : String)
    (params : Option Json) : Json × ClientState :=
  let ps := params.getD (Json.obj [])
  let req := Json.obj
    [("jsonrpc", Json.str "2.0"),
     ("id", Json.num (st.request_id : Int)),
     ("method", Json.str "call"),
     ("params", Json.arr [st.session_id, Json.str ns, Json.str meth, ps])]
  (req, { st with request_id := st.request_id + 1, sent := st.sent ++ [req] })

/-- Build one request per call descriptor, in order, threading the client
state (the list comprehension in `_call_api_batch`). -/
def buildRequests (st : ClientState)
    (calls : List (String × String × Option Json)) : List Json × ClientState :=
  match calls with
  | [] => ([], st)
  | c :: cs =>
    let (req, st1) := createRpcRequest st c.1 c.2.1 c.2.2
    let (reqs, st2) := buildRequests st1 cs
    (req :: reqs, st2)

/-- Response interpretation of `_call_api` (lines 81–94 of `api.py`): the
body must be a JSON array; the first item must be a dict; its `result`
member (defaulting to `[]`) must be a list of length > 1, whose element at
index 1 is the payload.  Every other shape — including the `AttributeError`
from `.get` on a non-dict item, which the `except` clause converts to
`None` — yields `none`. -/
def parseSingleResponse (resp : TResp) : Option Json :=
  match resp with
  | .fail => none
  | .ok body =>
    match body with
    | .arr (item :: _) =>
      match item with
      | .obj o =>
        match (Json.olookup o "result").getD (Json.arr []) with
        | .arr (_ :: payload :: _) => some payload
        | _ => none
      | _ => none
    | _ => none

/-- `_call_api(namespace, method, params)`: build one request (the id is
consumed even when the transport fails) and interpret the response.  Never
raises; never touches the session token. -/
def callApi (st : ClientState) (ns meth : String)
    (params : Option Json) (resp : TResp) : Option Json × ClientState :=
  let (_, st1) := createRpcRequest st ns meth params
  (parseSingleResponse resp, st1)

/-- The per-item loop of `_call_api_batch` (lines 127–163): produce one
entry per response item and count the `-32002` (access denied) errors.
Result `none` models an exception escaping the loop — this happens exactly
when some item has an `error` member that is not a dict, making
`item["error"].get("code")` raise; the surrounding `except` then returns
`[None] * len(calls)` and skips the session-reset check. -/
def processItems : List Json → Option (List (Option Json) × Nat)
  | [] => some ([], 0)
  | item :: rest =>
    match item with
    | .obj o =>
      match Json.olookup o "error" with
      | some e =>
        match e with
        | .obj eo =>
          let hit : Bool :=
            match Json.olookup eo "code" with
            | some c => Json.pyEqInt c (-32002)
            | none => false
          match processItems rest with
          | some (rs, cnt) => some (none :: rs, (if hit then 1 else 0) + cnt)
          | none => none
        | _ => none
      | none =>
        let entry : Option Json :=
          match (Json.olookup o "result").getD (Json.arr []) with
          | .arr (_ :: payload :: _) => some payload
          | _ => none
        match processItems rest with
        | some (rs, cnt) => some (entry :: rs, cnt)
        | none => none
    | _ =>
      match processItems rest with
      | some (rs, cnt) => some ((none : Option Json) :: rs, cnt)
      | none => none

/-- `_call_api_batch(calls)`: build all requests, POST them as one array,
and interpret the response array item by item.  On any exception or
non-array body, return `None` for every input position.  After a completed
loop, reset the session token to the sentinel when at least two access
denied errors were counted and the token is not already the sentinel. -/
def callApiBatch (st : ClientState)
    (calls : List (String × String × Option Json)) (resp : TResp) :
    List (Option Json) × ClientState :=
  let (_, st1) := buildRequests st calls
  match resp with
  | .fail => (List.replicate calls.length none, st1)
  | .ok body =>
    match body with
    | .arr data =>
      match processItems data with
      | none => (List.replicate calls.length none, st1)
      | some (results, cnt) =>
        if 2 ≤ cnt ∧ Json.pyEqStr st1.session_id UNAUTHENTICATED_SESSION = false then
          (results, { st1 with session_id := Json.str UNAUTHENTICATED_SESSION })
        else
          (results, st1)
    | _ => (List.replicate calls.length none, st1)

/-- The double-hash login digest of `async_login` (lines 195–196):
`hashed = sha256(password).hexdigest().upper()`;
`hashed_with_salt = sha256((hashed + salt).encode()).hexdigest().upper()`.
`sha` is the external SHA-256 hex-digest collaborator. -/
def loginDigest (sha : String → String) (password salt : String) : String :=
  pyUpper (sha (pyUpper (sha password) ++ salt))

/-- Python `x in ("0", 0)` on the decoded `result` code (`none` models the
Python value `None` returned by `.get` when the key is absent). -/
def isCode0 (rc : Option Json) : Bool :=
  match rc with
  | some c => Json.pyEqStr c "0" || Json.pyEqInt c 0
  | none => false

/-- Python `x in (1, "1")`. -/
def isCode1 (rc : Option Json) : Bool :=
  match rc with
  | some c => Json.pyEqInt c 1 || Json.pyEqStr c "1"
  | none => false

/-- Python `x in (2, "2")`. -/
def isCode2 (rc : Option Json) : Bool :=
  match rc with
  | some c => Json.pyEqInt c 2 || Json.pyEqStr c "2"
  | none => false

/-- `async_login()` (lines 179–241).  `r1` is the HTTP outcome of the
`web_login_info` call, `r2` that of the `web_login` call (unused when the
flow fails before it).  Returns the Python boolean result together with the
resulting client state.  Every exception inside the `try` is caught by the
`except` clause and yields `False` with the token unchanged; the modelled
exception points are: `in` on a non-container (`TypeError`), string
concatenation with a non-string salt (`TypeError`), and `.get` on a
non-dict login result (`AttributeError`). -/
def asyncLogin (sha : String → String) (st : ClientState) (r1 r2 : TResp) :
    Bool × ClientState :=
  match st.password with
  | none => (false, st)
  | some pw =>
    if pw == "" then (false, st)
    else
      let (li, st1) := callApi st "zwrt_web" "web_login_info" none r1
      match li with
      | none => (false, st1)
      | some info =>
        if !info.pyTruthy then (false, st1)
        else
          match Json.pyContains info "zte_web_sault" with
          | none => (false, st1)
          | some false => (false, st1)
          | some true =>
            match Json.getItem info "zte_web_sault" with
            | none => (false, st1)
            | some saltv =>
              match saltv with
              | .str salt =>
                let hashed_with_salt := loginDigest sha pw salt
                let (lr, st2) := callApi st1 "zwrt_web" "web_login"
                  (some (Json.obj [("password", Json.str (pyUpper hashed_with_salt))])) r2
                match lr with
                | none => (false, st2)
                | some res =>
                  if !res.pyTruthy then (false, st2)
                  else
                    match res with
                    | .obj ro =>
                      let rc := Json.olookup ro "result"
                      if isCode0 rc then
                        (true, { st2 with session_id :=
                          (Json.olookup ro "ubus_rpc_session").getD st2.session_id })
                      else if isCode1 rc then (false, st2)
                      else if isCode2 rc then (false, st2)
                      else (false, st2)
                    | _ => (false, st2)
              | _ => (false, st1)

/-- Lines 263–270 of `async_update`: authenticate when a password is
configured and the token equals the sentinel.  The second component is
`true` when an exception escapes here: on a successful login the code
evaluates `self.session_id[:8]` for logging, which raises `TypeError`
when the adopted token is not a string. -/
def loginStep (sha : String → String) (st : ClientState) (r1 r2 : TResp) :
    ClientState × Bool :=
  if (match st.password with | some pw => pw != "" | none => false)
      && Json.pyEqStr st.session_id UNAUTHENTICATED_SESSION then
    let (ok, st1) := asyncLogin sha st r1 r2
    (st1, ok && !st1.session_id.isStr)
  else
    (st, false)

/-- The five fixed call descriptors of `async_update` (lines 272–285),
with the router-status method selected from the session token. -/
def updateCalls (session_id : Json) : List (String × String × Option Json) :=
  let router_method :=
    if !(Json.pyEqStr session_id UNAUTHENTICATED_SESSION) then "router_get_status"
    else "router_get_status_no_auth"
  [("zwrt_router.api", router_method, none),
   ("zte_nwinfo_api", "nwinfo_get_netinfo", none),
   ("zwrt_data", "get_wwandst",
     some (Json.obj [("source_module", Json.str "web"), ("cid", Json.num 1),
                     ("type", Json.num 4)])),
   ("zwrt_router.api", "router_get_user_list_num", none),
   ("zwrt_wlan", "report", none)]

/-- Python `x or {}` on a batch result entry (lines 323–327). -/
def orEmpty (x : Option Json) : Json :=
  match x with
  | some j => if j.pyTruthy then j else Json.obj []
  | none => Json.obj []

/-- Assemble the snapshot dict of `async_update` (lines 322–328). -/
def mkSnapshot (a b c d e : Option Json) : Json :=
  Json.obj
    [("router_status", orEmpty a),
     ("network_info", orEmpty b),
     ("data_usage", orEmpty c),
     ("device_info", orEmpty d),
     ("wlan_info", orEmpty e)]

/-- `async_update()` (lines 261–328).  `r1`, `r2` are the HTTP outcomes for
the optional login's two calls, `r3` the outcome for the batch call.
`async_update` has no exception handler, so exceptions escape to the
caller (`Except.error ()`); the modelled raise points are: `TypeError`
from `self.session_id[:8]` when the token is not a string (lines 268 and
275), `IndexError` from `results[0]`…`results[4]` when the batch returned
fewer than five results (lines 291–309), and `AttributeError` from
`results[2].get(...)` when the data-usage payload is truthy but not a dict
(line 320). -/
def asyncUpdate (sha : String → String) (st : ClientState) (r1 r2 r3 : TResp) :
    Except Unit Json × ClientState :=
  let (st1, raised) := loginStep sha st r1 r2
  if raised then (Except.error (), st1)
  else if !st1.session_id.isStr then (Except.error (), st1)
  else
    let (results, st2) := callApiBatch st1 (updateCalls st1.session_id) r3
    match results with
    | a :: b :: c :: d :: e :: _ =>
      match c with
      | some j =>
        if j.pyTruthy && !j.isObj then (Except.error (), st2)
        else (Except.ok (mkSnapshot a b c d e), st2)
      | none => (Except.ok (mkSnapshot a b c d e), st2)
    | _ => (Except.error (), st2)

/-- `close()` releases the HTTP session only; it touches none of the
modelled state. -/
def closeClient (st : ClientState) : ClientState := st

/-- One public operation on the client together with the transport outcomes
of the HTTP POSTs it may perform. -/
inductive Op where
  | one (ns meth : String) (params : Option Json) (r : TResp)
  | batch (calls : List (String × String × Option Json)) (r : TResp)
  | login (r1 r2 : TResp)
  | update (r1 r2 r3 : TResp)
  | close

/-- State transition of one operation. -/
def applyOp (sha : String → String) (st : ClientState) : Op → ClientState
  | .one ns meth params r => (callApi st ns meth params r).2
  | .batch calls r => (callApiBatch st calls r).2
  | .login r1 r2 => (asyncLogin sha st r1 r2).2
  | .update r1 r2 r3 => (asyncUpdate sha st r1 r2 r3).2
  | .close => closeClient st

/-- Run a sequence of operations. -/
def runOps (sha : String → String) (st : ClientState) : List Op → ClientState
  | [] => st
  | op :: ops => runOps sha (applyOp sha st op) ops

/-- The `id` member of a built request object. -/
def reqId (j : Json) : Int :=
  match j with
  | .obj o =>
    match Json.olookup o "id" with
    | some (.num n) => n
    | _ => 0
  | _ => 0

/-! ### Helper lemmas -/

theorem charOfNat_toNat (n : Nat) (h : n < 55296) : (Char.ofNat n).toNat = n := by
  have hv : n.isValidChar := Or.inl h
  simp [Char.ofNat, hv, Char.ofNatAux, Char.toNat, UInt32.toNat, BitVec.toNat_ofNatLt]

theorem pyCharUp_idem (c : Char) : pyCharUp (pyCharUp c) = pyCharUp c := by
  unfold pyCharUp
  by_cases h : 97 ≤ c.toNat ∧ c.toNat ≤ 122
  · have ht : (Char.ofNat (c.toNat - 32)).toNat = c.toNat - 32 :=
      charOfNat_toNat (c.toNat - 32) (by omega)
    rw [if_pos h, if_neg]
    rw [ht]
    omega
  · rw [if_neg h, if_neg h]
theorem pyUpper_idem (s : String) : pyUpper (pyUpper s) = pyUpper s := by
  have hc : pyCharUp ∘ pyCharUp = pyCharUp := funext fun c => pyCharUp_idem c
  simp [pyUpper, List.map_map, hc]

/-- Count, following the claim's words, of the response items whose `error`
member has code `-32002`. -/
def claimErrCount (data : List Json) : Nat :=
  data.countP (fun item =>
    match item with
    | .obj o =>
      match Json.olookup o "error" with
      | some (.obj eo) =>
        match Json.olookup eo "code" with
        | some c => Json.pyEqInt c (-32002)
        | none => false
      | _ => false
    | _ => false)

theorem processItems_length (data : List Json) (rs : List (Option Json)) (cnt : Nat)
    (h : processItems data = some (rs, cnt)) : rs.length = data.length := by
  induction data generalizing rs cnt with
  | nil => simp [processItems] at h; simp [← h.1]
  | cons item rest ih =>
    unfold processItems at h
    rcases item with _ | b | n | s | l | o <;> simp only at h
    case obj =>
      rcases he : Json.olookup o "error" with _ | e
      · rw [he] at h
        simp only at h
        rcases hr : processItems rest with _ | p
        · rw [hr] at h; simp at h
        · rw [hr] at h
          rcases p with ⟨rs', cnt'⟩
          simp only [Option.some.injEq, Prod.mk.injEq] at h
          have := ih rs' cnt' hr
          simp [← h.1, this]
      · rw [he] at h
        rcases e with _ | b | n | s | l | eo <;> simp only at h <;> try exact absurd h (by simp)
        case obj =>
          rcases hr : processItems rest with _ | p
          · rw [hr] at h; simp at h
          · rw [hr] at h
            rcases p with ⟨rs', cnt'⟩
            simp only [Option.some.injEq, Prod.mk.injEq] at h
            have := ih rs' cnt' hr
            simp [← h.1, this]
    all_goals
      rcases hr : processItems rest with _ | p
      · rw [hr] at h; simp at h
      · rw [hr] at h
        rcases p with ⟨rs', cnt'⟩
        simp only [Option.some.injEq, Prod.mk.injEq] at h
        have := ih rs' cnt' hr
        simp [← h.1, this]

theorem processItems_count (data : List Json) (rs : List (Option Json)) (cnt : Nat)
    (h : processItems data = some (rs, cnt)) : cnt = claimErrCount data := by
  induction data generalizing rs cnt with
  | nil =>
    simp [processItems] at h
    simp [claimErrCount, ← h.2]
  | cons item rest ih =>
    unfold processItems at h
    rcases item with _ | b | n | s | l | o <;> simp only at h
    case obj =>
      rcases he : Json.olookup o "error" with _ | e
      · rw [he] at h
        simp only at h
        rcases hr : processItems rest with _ | p
        · rw [hr] at h; simp at h
        · rw [hr] at h
          rcases p with ⟨rs', cnt'⟩
          simp only [Option.some.injEq, Prod.mk.injEq] at h
          have := ih rs' cnt' hr
          simp [claimErrCount, List.countP_cons, he, ← h.2, this]
      · rw [he] at h
        rcases e with _ | b | n | s | l | eo <;> simp only at h <;> try exact absurd h (by simp)
        case obj =>
          rcases hr : processItems rest with _ | p
          · rw [hr] at h; simp at h
          · rw [hr] at h
            rcases p with ⟨rs', cnt'⟩
            simp only [Option.some.injEq, Prod.mk.injEq] at h
            have := ih rs' cnt' hr
            rcases hc : Json.olookup eo "code" with _ | c
            · rw [hc] at h
              simp [claimErrCount, List.countP_cons, he, hc, ← h.2, this]
            · rw [hc] at h
              by_cases hhit : Json.pyEqInt c (-32002) = true
              · simp only [hhit, if_pos] at h
                simp [claimErrCount, List.countP_cons, he, hc, hhit, ← h.2, this]
                omega
              · simp only [Bool.not_eq_true] at hhit
                simp only [hhit] at h
                simp [claimErrCount, List.countP_cons, he, hc, hhit, ← h.2, this]
    all_goals
      rcases hr : processItems rest with _ | p
      · rw [hr] at h; simp at h
      · rw [hr] at h
        rcases p with ⟨rs', cnt'⟩
        simp only [Option.some.injEq, Prod.mk.injEq] at h
        have := ih rs' cnt' hr
        simp [claimErrCount, List.countP_cons, ← h.2, this]

theorem reqId_createRpcRequest (st : ClientState) (ns meth : String)
    (params : Option Json) :
    reqId (createRpcRequest st ns meth params).1 = (st.request_id : Int) := by
  simp [createRpcRequest, reqId, Json.olookup, List.find?]

/-- Relation between a client state and a later state of the same client:
the identity fields are unchanged, the ghost request log has grown by a
block of requests whose ids are exactly the consecutive integers starting
at the earlier state's `request_id`, and `request_id` advanced by the size
of that block. -/
def SentDelta (st st' : ClientState) : Prop :=
  st'.host = st.host ∧ st'.password = st.password ∧ st'.base_url = st.base_url ∧
  ∃ ds : List Json, st'.sent = st.sent ++ ds ∧
    st'.request_id = st.request_id + ds.length ∧
    ds.map reqId = (List.range' st.request_id ds.length).map Int.ofNat

theorem sentDelta_refl (st : ClientState) : SentDelta st st :=
  ⟨rfl, rfl, rfl, [], by simp, by simp, by simp⟩

theorem sentDelta_trans {st st' st'' : ClientState}
    (h1 : SentDelta st st') (h2 : SentDelta st' st'') : SentDelta st st'' := by
  obtain ⟨a1, b1, c1, ds1, hs1, hr1, hi1⟩ := h1
  obtain ⟨a2, b2, c2, ds2, hs2, hr2, hi2⟩ := h2
  refine ⟨a2.trans a1, b2.trans b1, c2.trans c1, ds1 ++ ds2, ?_, ?_, ?_⟩
  · rw [hs2, hs1, List.append_assoc]
  · rw [hr2, hr1]; simp; omega
  · rw [List.map_append, hi1, hi2, hr1, List.length_append]
    rw [← List.map_append, List.range'_append_1]
    rw [Nat.add_comm ds2.length ds1.length]

theorem sentDelta_session {st st' : ClientState} (x : Json)
    (h : SentDelta st st') : SentDelta st { st' with session_id := x } := by
  obtain ⟨a, b, c, ds, hs, hr, hi⟩ := h
  exact ⟨a, b, c, ds, hs, hr, hi⟩

theorem sentDelta_createRpcRequest (st : ClientState) (ns meth : String)
    (params : Option Json) : SentDelta st (createRpcRequest st ns meth params).2 := by
  refine ⟨rfl, rfl, rfl, [(createRpcRequest st ns meth params).1], rfl, rfl, ?_⟩
  simp [reqId_createRpcRequest]

theorem sentDelta_callApi (st : ClientState) (ns meth : String)
    (params : Option Json) (r : TResp) : SentDelta st (callApi st ns meth params r).2 :=
  sentDelta_createRpcRequest st ns meth params

theorem sentDelta_buildRequests (st : ClientState)
    (calls : List (String × String × Option Json)) :
    SentDelta st (buildRequests st calls).2 := by
  induction calls generalizing st with
  | nil => exact sentDelta_refl st
  | cons c cs ih =>
    have h1 := sentDelta_createRpcRequest st c.1 c.2.1 c.2.2
    have h2 := ih (createRpcRequest st c.1 c.2.1 c.2.2).2
    have : (buildRequests st (c :: cs)).2 =
        (buildRequests (createRpcRequest st c.1 c.2.1 c.2.2).2 cs).2 := by
      simp [buildRequests]
    rw [this]
    exact sentDelta_trans h1 h2

theorem sentDelta_callApiBatch (st : ClientState)
    (calls : List (String × String × Option Json)) (r : TResp) :
    SentDelta st (callApiBatch st calls r).2 := by
  unfold callApiBatch
  rcases hbr : buildRequests st calls with ⟨reqs, st1⟩
  have hb := sentDelta_buildRequests st calls
  rw [hbr] at hb
  rcases r with _ | body
  · exact hb
  · match body with
    | .null | .bool _ | .num _ | .str _ | .obj _ => exact hb
    | .arr data =>
      rcases hp : processItems data with _ | ⟨rs, cnt⟩
      · simp only [hp]
        exact hb
      · simp only [hp]
        split
        · exact sentDelta_session _ hb
        · exact hb

theorem sentDelta_asyncLogin (sha : String → String) (st : ClientState) (r1 r2 : TResp) :
    SentDelta st (asyncLogin sha st r1 r2).2 := by
  unfold asyncLogin
  rcases hpw : st.password with _ | pw
  · exact sentDelta_refl st
  · by_cases hpe : (pw == "") = true
    · simp only [hpe, if_pos]
      exact sentDelta_refl st
    · simp only [Bool.not_eq_true] at hpe
      simp only [hpe, Bool.false_eq_true, if_false]
      rcases hc1 : callApi st "zwrt_web" "web_login_info" none r1 with ⟨li, st1⟩
      have h1 := sentDelta_callApi st "zwrt_web" "web_login_info" none r1
      rw [hc1] at h1
      rcases li with _ | info
      · exact h1
      · simp only
        split
        · exact h1
        · rcases hco : Json.pyContains info "zte_web_sault" with _ | cb
          · simp only [hco]
            exact h1
          · rcases cb
            · simp only [hco]
              exact h1
            · simp only [hco]
              rcases hgi : Json.getItem info "zte_web_sault" with _ | saltv
              · simp only [hgi]
                exact h1
              · simp only [hgi]
                match saltv with
                | .null | .bool _ | .num _ | .arr _ | .obj _ => exact h1
                | .str salt =>
                  simp only
                  rcases hc2 : callApi st1 "zwrt_web" "web_login"
                      (some (Json.obj [("password",
                        Json.str (pyUpper (loginDigest sha pw salt)))])) r2 with ⟨lr, st2⟩
                  have h2 := sentDelta_callApi st1 "zwrt_web" "web_login"
                      (some (Json.obj [("password",
                        Json.str (pyUpper (loginDigest sha pw salt)))])) r2
                  rw [hc2] at h2
                  have h12 := sentDelta_trans h1 h2
                  rcases lr with _ | res
                  · exact h12
                  · simp only
                    split
                    · exact h12
                    · match res with
                      | .null | .bool _ | .num _ | .str _ | .arr _ => exact h12
                      | .obj ro =>
                        simp only
                        split
                        · exact sentDelta_session _ h12
                        · split
                          · exact h12
                          · split
                            · exact h12
                            · exact h12

theorem sentDelta_loginStep (sha : String → String) (st : ClientState) (r1 r2 : TResp) :
    SentDelta st (loginStep sha st r1 r2).1 := by
  unfold loginStep
  split
  · rcases hl : asyncLogin sha st r1 r2 with ⟨b, st1⟩
    have h := sentDelta_asyncLogin sha st r1 r2
    rw [hl] at h
    exact h
  · exact sentDelta_refl st

theorem sentDelta_asyncUpdate (sha : String → String) (st : ClientState)
    (r1 r2 r3 : TResp) : SentDelta st (asyncUpdate sha st r1 r2 r3).2 := by
  unfold asyncUpdate
  rcases hls : loginStep sha st r1 r2 with ⟨st1, raised⟩
  have h1 := sentDelta_loginStep sha st r1 r2
  rw [hls] at h1
  simp only at h1
  rcases raised
  · simp only [Bool.false_eq_true, if_false]
    split
    · exact h1
    · rcases hb : callApiBatch st1 (updateCalls st1.session_id) r3 with ⟨results, st2⟩
      have h2 := sentDelta_callApiBatch st1 (updateCalls st1.session_id) r3
      rw [hb] at h2
      have h12 := sentDelta_trans h1 h2
      simp only
      split
      · split
        · split
          · exact h12
          · exact h12
        · exact h12
      · exact h12
  · simp only [if_true]
    exact h1

theorem sentDelta_applyOp (sha : String → String) (st : ClientState) (op : Op) :
    SentDelta st (applyOp sha st op) := by
  rcases op with ⟨ns, meth, params, r⟩ | ⟨calls, r⟩ | ⟨r1, r2⟩ | ⟨r1, r2, r3⟩ | _
  · exact sentDelta_callApi st ns meth params r
  · exact sentDelta_callApiBatch st calls r
  · exact sentDelta_asyncLogin sha st r1 r2
  · exact sentDelta_asyncUpdate sha st r1 r2 r3
  · exact sentDelta_refl st

theorem sentDelta_runOps (sha : String → String) (st : ClientState) (ops : List Op) :
    SentDelta st (runOps sha st ops) := by
  induction ops generalizing st with
  | nil => exact sentDelta_refl st
  | cons op ops ih =>
    exact sentDelta_trans (sentDelta_applyOp sha st op) (ih (applyOp sha st op))

/-- C8: over any sequence of operations of one client instance (each with
arbitrary transport outcomes, successful or failed), the request ids
embedded in the envelopes built by `_create_rpc_request` are exactly the
consecutive integers starting at 1, and are therefore strictly increasing
and never repeated. -/
theorem c8_request_ids (sha : String → String) (host : String)
    (password : Option String) (ops : List Op) :
    (runOps sha (mkClient host password) ops).sent.map reqId =
      (List.range' 1 (runOps sha (mkClient host password) ops).sent.length).map Int.ofNat
    ∧ List.Pairwise (fun a b => a < b)
        ((runOps sha (mkClient host password) ops).sent.map reqId) := by
  have h := sentDelta_runOps sha (mkClient host password) ops
  obtain ⟨-, -, -, ds, hs, -, hi⟩ := h
  have hsent : (runOps sha (mkClient host password) ops).sent = ds := by
    rw [hs]
    simp [mkClient]
  have hids : (runOps sha (mkClient host password) ops).sent.map reqId =
      (List.range' 1 (runOps sha (mkClient host password) ops).sent.length).map Int.ofNat := by
    rw [hsent, hi]
    simp [mkClient, hsent]
  refine ⟨hids, ?_⟩
  rw [hids]
  have hp : List.Pairwise (fun a b => a < b)
      (List.range' 1 (runOps sha (mkClient host password) ops).sent.length) :=
    List.pairwise_lt_range' 1 _
  exact hp.map Int.ofNat (fun a b hab => Int.ofNat_lt.mpr hab)

theorem olookup_any {o : List (String × Json)} {k : String} {v : Json}
    (h : Json.olookup o k = some v) : o.any (fun p => p.1 == k) = true := by
  unfold Json.olookup at h
  rcases hf : o.find? (fun p => p.1 == k) with _ | p
  · rw [hf] at h
    simp at h
  · have hm := List.mem_of_find?_eq_some hf
    have hp := List.find?_some hf
    exact List.any_eq_true.mpr ⟨p, hm, hp⟩

/-- C5: the login digest of `async_login` is
`uppercase(hex(SHA256(uppercase(hex(SHA256(credential)))) + salt)))` with no
separators; it is a deterministic function of `(credential, salt)`; and it
is exactly the value sent as the `password` parameter of the `web_login`
call (the code re-uppercases it, which is the identity on an already
uppercased digest). -/
theorem c5_login_digest (sha : String → String) :
    (∀ password salt : String,
      loginDigest sha password salt = pyUpper (sha (pyUpper (sha password) ++ salt)))
    ∧ (∀ password salt : String,
      pyUpper (loginDigest sha password salt) = loginDigest sha password salt)
    ∧ ∀ (st : ClientState) (r1 r2 : TResp) (pw salt : String)
        (o : List (String × Json)),
        st.password = some pw → pw ≠ "" →
        parseSingleResponse r1 = some (Json.obj o) →
        (Json.obj o).pyTruthy = true →
        Json.olookup o "zte_web_sault" = some (Json.str salt) →
        (asyncLogin sha st r1 r2).2.sent = st.sent ++
          [(createRpcRequest st "zwrt_web" "web_login_info" none).1,
           Json.obj
             [("jsonrpc", Json.str "2.0"),
              ("id", Json.num ((st.request_id : Int) + 1)),
              ("method", Json.str "call"),
              ("params", Json.arr
                [st.session_id, Json.str "zwrt_web", Json.str "web_login",
                 Json.obj [("password", Json.str (loginDigest sha pw salt))]])]] := by
  refine ⟨fun password salt => rfl, fun password salt => pyUpper_idem _, ?_⟩
  intro st r1 r2 pw salt o h1 h2 h3 h4 h5
  have h2' : (pw == "") = false := by
    simp [h2]
  have hc : Json.pyContains (Json.obj o) "zte_web_sault" = some true := by
    simp [Json.pyContains, olookup_any h5]
  have hg : Json.getItem (Json.obj o) "zte_web_sault" = some (Json.str salt) := by
    simp [Json.getItem, h5]
  unfold asyncLogin
  rw [h1]
  simp only [h2', Bool.false_eq_true, if_false]
  simp only [callApi]
  rw [h3]
  simp only [h4, Bool.not_true, Bool.false_eq_true, if_false]
  rw [hc]
  simp only
  rw [hg]
  simp only
  rcases hp2 : parseSingleResponse r2 with _ | res
  · simp [createRpcRequest, loginDigest, pyUpper_idem, List.append_assoc]
  · simp only
    split
    · simp [createRpcRequest, loginDigest, pyUpper_idem, List.append_assoc]
    · match res with
      | .null | .bool _ | .num _ | .str _ | .arr _ =>
        simp [createRpcRequest, loginDigest, pyUpper_idem, List.append_assoc]
      | .obj ro =>
        simp only
        split
        · simp [createRpcRequest, loginDigest, pyUpper_idem, List.append_assoc]
        · split
          · simp [createRpcRequest, loginDigest, pyUpper_idem, List.append_assoc]
          · split
            · simp [createRpcRequest, loginDigest, pyUpper_idem, List.append_assoc]
            · simp [createRpcRequest, loginDigest, pyUpper_idem, List.append_assoc]

theorem buildRequests_length (st : ClientState)
    (calls : List (String × String × Option Json)) :
    (buildRequests st calls).1.length = calls.length := by
  induction calls generalizing st with
  | nil => rfl
  | cons c cs ih => simp [buildRequests, ih]

theorem buildRequests_fields (st : ClientState)
    (calls : List (String × String × Option Json)) :
    (buildRequests st calls).2.host = st.host
    ∧ (buildRequests st calls).2.password = st.password
    ∧ (buildRequests st calls).2.base_url = st.base_url
    ∧ (buildRequests st calls).2.session_id = st.session_id := by
  induction calls generalizing st with
  | nil => exact ⟨rfl, rfl, rfl, rfl⟩
  | cons c cs ih =>
    have h := ih (createRpcRequest st c.1 c.2.1 c.2.2).2
    simpa [buildRequests, createRpcRequest] using h

/-- C6 (amended): the constructed envelope is an object with members
`jsonrpc = "2.0"` (the JSON-RPC version member is named `jsonrpc`, not
`version`), `id` = the next request id, `method = "call"`, and `params` =
the 4-element array `[session token, namespace, method, params-or-empty]`;
and a batch body carries one such envelope per descriptor in order. -/
theorem c6_envelope_amended (st : ClientState) (ns meth : String)
    (params : Option Json) (calls : List (String × String × Option Json))
    (c : String × String × Option Json) :
    (createRpcRequest st ns meth params).1 = Json.obj
      [("jsonrpc", Json.str "2.0"),
       ("id", Json.num (st.request_id : Int)),
       ("method", Json.str "call"),
       ("params", Json.arr [st.session_id, Json.str ns, Json.str meth,
          params.getD (Json.obj [])])]
    ∧ buildRequests st [] = ([], st)
    ∧ (buildRequests st (c :: calls)).1 =
        (createRpcRequest st c.1 c.2.1 c.2.2).1 ::
          (buildRequests (createRpcRequest st c.1 c.2.1 c.2.2).2 calls).1
    ∧ (buildRequests st calls).1.length = calls.length := by
  refine ⟨rfl, rfl, by simp [buildRequests], buildRequests_length st calls⟩

/-- C6 counterexample: the claim names the version member `version`, but the
envelope constructed by `_create_rpc_request` has no `version` member; the
member carrying `"2.0"` is named `jsonrpc`. -/
theorem c6_counterexample :
    Json.getItem (createRpcRequest (mkClient "h" none) "ns" "m" none).1 "version" = none
    ∧ Json.getItem (createRpcRequest (mkClient "h" none) "ns" "m" none).1 "jsonrpc" =
        some (Json.str "2.0")
    ∧ Json.keys (createRpcRequest (mkClient "h" none) "ns" "m" none).1 =
        ["jsonrpc", "id", "method", "params"] :=
  ⟨rfl, rfl, rfl⟩

/-- C9: `_call_api` never raises: its value is `parseSingleResponse` of the
exchange outcome, which is `None` on transport failure, on a non-array
body, on an empty array, on a non-dict first item, and on a first item
whose `result` member is absent, not a list, or shorter than 2 elements;
when the first item has a `result` list with at least 2 elements, the
payload at index 1 is returned. -/
theorem c9_call_one (st : ClientState) (ns meth : String) (params : Option Json) :
    ((callApi st ns meth params TResp.fail).1 = none)
    ∧ (∀ resp : TResp, (callApi st ns meth params resp).1 = parseSingleResponse resp)
    ∧ (∀ b : Json, b.isArr = false → parseSingleResponse (TResp.ok b) = none)
    ∧ parseSingleResponse (TResp.ok (Json.arr [])) = none
    ∧ (∀ (j : Json) (rest : List Json), j.isObj = false →
        parseSingleResponse (TResp.ok (Json.arr (j :: rest))) = none)
    ∧ (∀ (o : List (String × Json)) (rest : List Json),
        Json.olookup o "result" = none →
        parseSingleResponse (TResp.ok (Json.arr (Json.obj o :: rest))) = none)
    ∧ (∀ (o : List (String × Json)) (rest : List Json) (v : Json),
        Json.olookup o "result" = some v → v.isArr = false →
        parseSingleResponse (TResp.ok (Json.arr (Json.obj o :: rest))) = none)
    ∧ (∀ (o : List (String × Json)) (rest : List Json) (l : List Json),
        Json.olookup o "result" = some (Json.arr l) → l.length < 2 →
        parseSingleResponse (TResp.ok (Json.arr (Json.obj o :: rest))) = none)
    ∧ (∀ (o : List (String × Json)) (rest : List Json) (x y : Json) (l : List Json),
        Json.olookup o "result" = some (Json.arr (x :: y :: l)) →
        parseSingleResponse (TResp.ok (Json.arr (Json.obj o :: rest))) = some y) := by
  refine ⟨rfl, fun resp => rfl, ?_, rfl, ?_, ?_, ?_, ?_, ?_⟩
  · intro b hb
    match b with
    | .null | .bool _ | .num _ | .str _ | .obj _ => rfl
    | .arr _ => simp [Json.isArr] at hb
  · intro j rest hj
    match j with
    | .null | .bool _ | .num _ | .str _ | .arr _ => rfl
    | .obj _ => simp [Json.isObj] at hj
  · intro o rest ho
    simp [parseSingleResponse, ho]
  · intro o rest v ho hv
    match v with
    | .arr _ => simp [Json.isArr] at hv
    | .null | .bool _ | .num _ | .str _ | .obj _ => simp [parseSingleResponse, ho]
  · intro o rest l ho hl
    match l with
    | [] => simp [parseSingleResponse, ho]
    | [x] => simp [parseSingleResponse, ho]
    | x :: y :: l' =>
      simp only [List.length_cons] at hl
      omega
  · intro o rest x y l ho
    simp [parseSingleResponse, ho]

/-- Witness for C9 at a concrete successful exchange. -/
theorem c9_call_one_witness :
    parseSingleResponse (TResp.ok (Json.arr
      [Json.obj [("result", Json.arr [Json.num 0, Json.str "ok"])]])) =
      some (Json.str "ok") :=
  (c9_call_one (mkClient "h" none) "a" "b" none).2.2.2.2.2.2.2.2
    [("result", Json.arr [Json.num 0, Json.str "ok"])] [] (Json.num 0)
    (Json.str "ok") [] rfl

/-- C2 (amended): `_call_api_batch` on N descriptors returns exactly N
results (all `None`) when the transport fails, when the body is not a JSON
array, and when the item loop aborts with an exception; but when the body
is a JSON array whose item loop completes, it returns one result per
*response item* — a list whose length is the response array's length, not
necessarily N. -/
theorem c2_batch_results_amended (st : ClientState)
    (calls : List (String × String × Option Json)) :
    ((callApiBatch st calls TResp.fail).1 = List.replicate calls.length none)
    ∧ (∀ b : Json, b.isArr = false →
        (callApiBatch st calls (TResp.ok b)).1 = List.replicate calls.length none)
    ∧ (∀ data : List Json, processItems data = none →
        (callApiBatch st calls (TResp.ok (Json.arr data))).1 =
          List.replicate calls.length none)
    ∧ (∀ (data : List Json) (rs : List (Option Json)) (cnt : Nat),
        processItems data = some (rs, cnt) →
        (callApiBatch st calls (TResp.ok (Json.arr data))).1 = rs
        ∧ rs.length = data.length) := by
  refine ⟨?_, ?_, ?_, ?_⟩
  · unfold callApiBatch
    rcases hbr : buildRequests st calls with ⟨reqs, st1⟩
    rfl
  · intro b hb
    unfold callApiBatch
    rcases hbr : buildRequests st calls with ⟨reqs, st1⟩
    match b with
    | .null | .bool _ | .num _ | .str _ | .obj _ => rfl
    | .arr _ => simp [Json.isArr] at hb
  · intro data hd
    unfold callApiBatch
    rcases hbr : buildRequests st calls with ⟨reqs, st1⟩
    simp only [hd]
  · intro data rs cnt hd
    refine ⟨?_, processItems_length data rs cnt hd⟩
    unfold callApiBatch
    rcases hbr : buildRequests st calls with ⟨reqs, st1⟩
    simp only [hd]
    split <;> rfl

/-- C2 counterexample: one descriptor, a well-formed empty-array response:
the batch returns 0 results for 1 input. -/
theorem c2_counterexample :
    ((callApiBatch (mkClient "h" none) [("zwrt_wlan", "report", none)]
        (TResp.ok (Json.arr []))).1).length = 0
    ∧ [("zwrt_wlan", "report", (none : Option Json))].length = 1 :=
  ⟨rfl, rfl⟩

/-- Witness for C2 (amended) at a concrete input. -/
theorem c2_batch_results_amended_witness :
    (callApiBatch (mkClient "h" none) [("a", "b", none)]
      (TResp.ok (Json.arr []))).1 = []
    ∧ ([] : List (Option Json)).length = ([] : List Json).length :=
  (c2_batch_results_amended (mkClient "h" none) [("a", "b", none)]).2.2.2 [] [] 0 rfl

/-- C1 (amended): provided the batch item loop completes without an
exception (in particular, every `error` member present in the response
items is a JSON object), a response array with at least two items whose
`error` member has code `-32002` and a token different from the sentinel
leads to the token being the sentinel after the call; with fewer than two
such items the token is unchanged.  When the loop aborts (some item's
`error` member is not an object), when the transport fails, and when the
body is not an array, the token is unchanged — even if the array contained
two or more such items. -/
theorem c1_expiry_reset_amended (st : ClientState)
    (calls : List (String × String × Option Json)) (resp : TResp) :
    ((callApiBatch st calls resp).2.session_id = st.session_id
      ∨ (callApiBatch st calls resp).2.session_id = Json.str UNAUTHENTICATED_SESSION)
    ∧ (∀ (data : List Json) (rs : List (Option Json)) (cnt : Nat),
        resp = TResp.ok (Json.arr data) → processItems data = some (rs, cnt) →
        2 ≤ claimErrCount data →
        Json.pyEqStr st.session_id UNAUTHENTICATED_SESSION = false →
        (callApiBatch st calls resp).2.session_id = Json.str UNAUTHENTICATED_SESSION)
    ∧ (∀ (data : List Json) (rs : List (Option Json)) (cnt : Nat),
        resp = TResp.ok (Json.arr data) → processItems data = some (rs, cnt) →
        claimErrCount data < 2 →
        (callApiBatch st calls resp).2.session_id = st.session_id)
    ∧ (∀ data : List Json,
        resp = TResp.ok (Json.arr data) → processItems data = none →
        (callApiBatch st calls resp).2.session_id = st.session_id)
    ∧ (resp = TResp.fail → (callApiBatch st calls resp).2.session_id = st.session_id)
    ∧ (∀ b : Json, resp = TResp.ok b → b.isArr = false →
        (callApiBatch st calls resp).2.session_id = st.session_id) := by
  have hsid := (buildRequests_fields st calls).2.2.2
  constructor
  · unfold callApiBatch
    rcases hbr : buildRequests st calls with ⟨reqs, st1⟩
    rw [hbr] at hsid
    rcases resp with _ | body
    · exact Or.inl hsid
    · match body with
      | .null | .bool _ | .num _ | .str _ | .obj _ => exact Or.inl hsid
      | .arr data =>
        rcases hp : processItems data with _ | ⟨rs, cnt⟩
        · simp only [hp]
          exact Or.inl hsid
        · simp only [hp]
          split
          · exact Or.inr rfl
          · exact Or.inl hsid
  refine ⟨?_, ?_, ?_, ?_, ?_⟩
  · intro data rs cnt hresp hd hcount htok
    subst hresp
    unfold callApiBatch
    rcases hbr : buildRequests st calls with ⟨reqs, st1⟩
    rw [hbr] at hsid
    simp only [hd]
    rw [if_pos]
    constructor
    · rw [← processItems_count data rs cnt hd] at hcount
      exact hcount
    · rw [hsid]
      exact htok
  · intro data rs cnt hresp hd hcount
    subst hresp
    unfold callApiBatch
    rcases hbr : buildRequests st calls with ⟨reqs, st1⟩
    rw [hbr] at hsid
    simp only [hd]
    rw [if_neg]
    · exact hsid
    · rw [← processItems_count data rs cnt hd] at hcount
      intro hcon
      omega
  · intro data hresp hd
    subst hresp
    unfold callApiBatch
    rcases hbr : buildRequests st calls with ⟨reqs, st1⟩
    rw [hbr] at hsid
    simp only [hd]
    exact hsid
  · intro hresp
    subst hresp
    unfold callApiBatch
    rcases hbr : buildRequests st calls with ⟨reqs, st1⟩
    rw [hbr] at hsid
    exact hsid
  · intro b hresp hb
    subst hresp
    unfold callApiBatch
    rcases hbr : buildRequests st calls with ⟨reqs, st1⟩
    rw [hbr] at hsid
    match b with
    | .null | .bool _ | .num _ | .str _ | .obj _ => exact hsid
    | .arr _ => simp [Json.isArr] at hb

/-- A batch response item whose `error` member has code `-32002`. -/
def errItemC : Json := Json.obj [("error", Json.obj [("code", Json.num (-32002))])]

/-- A batch response item whose `error` member is not an object (JSON
`null`): processing it raises `AttributeError` in `item["error"].get`. -/
def badErrC : Json := Json.obj [("error", Json.null)]

/-- A client state holding an authenticated session token `"T1"`. -/
def stT1 : ClientState := { mkClient "h" none with session_id := Json.str "T1" }

/-- C1 counterexample: a response array with two `-32002` error items
followed by an item whose `error` member is `null`.  The array contains at
least two items whose error member has code `-32002` and the token is not
the sentinel, yet after the call the token is still `"T1"`, not the
sentinel: the third item makes `item["error"].get("code")` raise, the
`except` clause returns early, and the reset at the end of the loop is
never reached. -/
theorem c1_counterexample :
    2 ≤ claimErrCount [errItemC, errItemC, badErrC]
    ∧ Json.pyEqStr stT1.session_id UNAUTHENTICATED_SESSION = false
    ∧ (callApiBatch stT1 [("zwrt_wlan", "report", none)]
        (TResp.ok (Json.arr [errItemC, errItemC, badErrC]))).2.session_id =
        Json.str "T1"
    ∧ Json.str "T1" ≠ Json.str UNAUTHENTICATED_SESSION := by
  refine ⟨by decide, rfl, rfl, ?_⟩
  intro h
  injection h with h'
  exact absurd h' (by decide)

/-- Witness for C1 (amended): two `-32002` items, loop completes, token
resets to the sentinel. -/
theorem c1_expiry_reset_amended_witness :
    (callApiBatch stT1 [("a", "b", none)]
      (TResp.ok (Json.arr [errItemC, errItemC]))).2.session_id =
      Json.str UNAUTHENTICATED_SESSION :=
  (c1_expiry_reset_amended stT1 [("a", "b", none)]
      (TResp.ok (Json.arr [errItemC, errItemC]))).2.1
    [errItemC, errItemC] [none, none] 2 rfl rfl (by decide) rfl

/-- C4 (amended): `async_login` never raises (every exception inside its
`try` is converted to a `False` return) and every failure path leaves the
token unchanged.  When the login flow reaches a truthy dict login result,
the outcome is decided by the `result` member compared with Python
equality against `"0"` and `0`: any value Python-equal to one of them — the
string `"0"`, the integer `0`, and also the JSON boolean `false` (Python
`False == 0`) — adopts the `ubus_rpc_session` field as the new token
(keeping the old token when the field is absent) and returns `True`; every
other value — including `1`, `"1"`, `2`, `"2"`, JSON `true` and any
unrecognized code — leaves the token unchanged and returns `False`. -/
theorem c4_login_result_amended (sha : String → String) (st : ClientState)
    (r1 r2 : TResp) :
    ((asyncLogin sha st r1 r2).1 = false →
      (asyncLogin sha st r1 r2).2.session_id = st.session_id)
    ∧ (∀ (pw salt : String) (o ro : List (String × Json)),
        st.password = some pw → pw ≠ "" →
        parseSingleResponse r1 = some (Json.obj o) →
        (Json.obj o).pyTruthy = true →
        Json.olookup o "zte_web_sault" = some (Json.str salt) →
        parseSingleResponse r2 = some (Json.obj ro) →
        (Json.obj ro).pyTruthy = true →
        ((isCode0 (Json.olookup ro "result") = true →
            (asyncLogin sha st r1 r2).1 = true
            ∧ (asyncLogin sha st r1 r2).2.session_id =
                (Json.olookup ro "ubus_rpc_session").getD st.session_id)
         ∧ (isCode0 (Json.olookup ro "result") = false →
            (asyncLogin sha st r1 r2).1 = false
            ∧ (asyncLogin sha st r1 r2).2.session_id = st.session_id))) := by
  constructor
  · unfold asyncLogin
    rcases hpw : st.password with _ | pw
    · intro _
      rfl
    · by_cases hpe : (pw == "") = true
      · simp only [hpe, if_pos]
        intro _
        trivial
      · simp only [Bool.not_eq_true] at hpe
        simp only [hpe, Bool.false_eq_true, if_false]
        rcases hc1 : callApi st "zwrt_web" "web_login_info" none r1 with ⟨li, st1⟩
        have hs1 : st1.session_id = st.session_id := by
          have h : (callApi st "zwrt_web" "web_login_info" none r1).2.session_id =
              st.session_id := rfl
          rw [hc1] at h
          exact h
        rcases li with _ | info
        · intro _
          exact hs1
        · simp only
          split
          · intro _
            exact hs1
          · rcases hco : Json.pyContains info "zte_web_sault" with _ | cb
            · simp only [hco]
              intro _
              exact hs1
            · rcases cb
              · simp only [hco]
                intro _
                exact hs1
              · simp only [hco]
                rcases hgi : Json.getItem info "zte_web_sault" with _ | saltv
                · simp only [hgi]
                  intro _
                  exact hs1
                · simp only [hgi]
                  match saltv with
                  | .null | .bool _ | .num _ | .arr _ | .obj _ =>
                    intro _
                    exact hs1
                  | .str salt =>
                    simp only
                    rcases hc2 : callApi st1 "zwrt_web" "web_login"
                        (some (Json.obj [("password",
                          Json.str (pyUpper (loginDigest sha pw salt)))])) r2 with ⟨lr, st2⟩
                    have hs2 : st2.session_id = st1.session_id := by
                      have h : (callApi st1 "zwrt_web" "web_login"
                          (some (Json.obj [("password",
                            Json.str (pyUpper (loginDigest sha pw salt)))])) r2).2.session_id =
                          st1.session_id := rfl
                      rw [hc2] at h
                      exact h
                    have hs12 := hs2.trans hs1
                    rcases lr with _ | res
                    · intro _
                      exact hs12
                    · simp only
                      split
                      · intro _
                        exact hs12
                      · match res with
                        | .null | .bool _ | .num _ | .str _ | .arr _ =>
                          intro _
                          exact hs12
                        | .obj ro =>
                          simp only
                          split
                          · intro hfalse
                            exact absurd hfalse (by simp)
                          · split
                            · intro _
                              exact hs12
                            · split
                              · intro _
                                exact hs12
                              · intro _
                                exact hs12
  · intro pw salt o ro h1 h2 h3 h4 h5 h6 h7
    have h2' : (pw == "") = false := by
      simp [h2]
    have hcn : Json.pyContains (Json.obj o) "zte_web_sault" = some true := by
      simp [Json.pyContains, olookup_any h5]
    have hg : Json.getItem (Json.obj o) "zte_web_sault" = some (Json.str salt) := by
      simp [Json.getItem, h5]
    constructor
    · intro hcode
      have hred : asyncLogin sha st r1 r2 =
          (true,
            { (callApi (callApi st "zwrt_web" "web_login_info" none r1).2 "zwrt_web"
                "web_login" (some (Json.obj [("password",
                  Json.str (pyUpper (loginDigest sha pw salt)))])) r2).2
              with session_id :=
                (Json.olookup ro "ubus_rpc_session").getD st.session_id }) := by
        unfold asyncLogin
        rw [h1]
        simp only [h2', Bool.false_eq_true, if_false]
        simp only [callApi]
        rw [h3]
        simp only [h4, Bool.not_true, Bool.false_eq_true, if_false]
        rw [hcn]
        simp only
        rw [hg]
        simp only
        rw [h6]
        simp only [h7, Bool.not_true, Bool.false_eq_true, if_false]
        simp [hcode]
        rfl
      rw [hred]
      exact ⟨rfl, rfl⟩
    · intro hcode
      have hred : asyncLogin sha st r1 r2 =
          (false,
            (callApi (callApi st "zwrt_web" "web_login_info" none r1).2 "zwrt_web"
              "web_login" (some (Json.obj [("password",
                Json.str (pyUpper (loginDigest sha pw salt)))])) r2).2) := by
        unfold asyncLogin
        rw [h1]
        simp only [h2', Bool.false_eq_true, if_false]
        simp only [callApi]
        rw [h3]
        simp only [h4, Bool.not_true, Bool.false_eq_true, if_false]
        rw [hcn]
        simp only
        rw [hg]
        simp only
        rw [h6]
        simp only [h7, Bool.not_true, Bool.false_eq_true, if_false]
        simp only [hcode, Bool.false_eq_true, if_false]
        split
        · rfl
        · split <;> rfl
      rw [hred]
      exact ⟨rfl, rfl⟩

/-- A concrete stand-in for the SHA-256 hex-digest collaborator, used only
to instantiate universally quantified theorems at a computable point. -/
def shaW : String → String := fun s => s ++ "#"

/-- A `web_login_info` exchange carrying salt `"ab12"`. -/
def r1C4 : TResp :=
  .ok (.arr [.obj [("result",
    .arr [.num 0, .obj [("zte_web_sault", .str "ab12")]])]])

/-- A `web_login` exchange whose login result carries `result: false`. -/
def r2C4 : TResp :=
  .ok (.arr [.obj [("result",
    .arr [.num 0, .obj [("result", .bool false),
                        ("ubus_rpc_session", .str "EVIL")]])]])

/-- C4 counterexample: a login response with the JSON boolean `false` as
its result code is neither `0` nor `"0"` nor `1`/`2` (it is an
"unrecognized code" in the claim's terms), so the claim requires a `False`
return with the token unchanged; but Python's `False == 0` makes
`result_code in ("0", 0)` true, so `async_login` returns `True` and adopts
the `ubus_rpc_session` value `"EVIL"` as the token. -/
theorem c4_counterexample :
    (asyncLogin shaW (mkClient "h" (some "pw")) r1C4 r2C4).1 = true
    ∧ (asyncLogin shaW (mkClient "h" (some "pw")) r1C4 r2C4).2.session_id =
        Json.str "EVIL"
    ∧ Json.str "EVIL" ≠ (mkClient "h" (some "pw")).session_id := by
  refine ⟨rfl, rfl, ?_⟩
  intro h
  rw [show (mkClient "h" (some "pw")).session_id =
    Json.str UNAUTHENTICATED_SESSION from rfl] at h
  injection h with h'
  exact absurd h' (by decide)

/-- A `web_login` exchange with string result code `"0"` and session
`"TOK1"`. -/
def r2ok : TResp :=
  .ok (.arr [.obj [("result",
    .arr [.num 0, .obj [("result", .str "0"),
                        ("ubus_rpc_session", .str "TOK1")]])]])

/-- Witness for C4 (amended) at a concrete successful login. -/
theorem c4_login_result_amended_witness :
    (asyncLogin shaW (mkClient "h" (some "pw")) r1C4 r2ok).1 = true
    ∧ (asyncLogin shaW (mkClient "h" (some "pw")) r1C4 r2ok).2.session_id =
        (Json.olookup [("result", Json.str "0"), ("ubus_rpc_session", Json.str "TOK1")]
          "ubus_rpc_session").getD (mkClient "h" (some "pw")).session_id :=
  ((c4_login_result_amended shaW (mkClient "h" (some "pw")) r1C4 r2ok).2 "pw" "ab12"
    [("zte_web_sault", Json.str "ab12")]
    [("result", Json.str "0"), ("ubus_rpc_session", Json.str "TOK1")]
    rfl (by decide) rfl rfl rfl rfl rfl).1 rfl

/-- Witness for C5 at the claim's concrete scenario: credential `"pass"`,
salt `"ab12"`. -/
theorem c5_login_digest_witness :
    (asyncLogin shaW (mkClient "h" (some "pass"))
        (.ok (.arr [.obj [("result",
          .arr [.num 0, .obj [("zte_web_sault", .str "ab12")]])]]))
        TResp.fail).2.sent =
      (mkClient "h" (some "pass")).sent ++
        [(createRpcRequest (mkClient "h" (some "pass")) "zwrt_web"
            "web_login_info" none).1,
         Json.obj
           [("jsonrpc", Json.str "2.0"),
            ("id", Json.num (((mkClient "h" (some "pass")).request_id : Int) + 1)),
            ("method", Json.str "call"),
            ("params", Json.arr
              [(mkClient "h" (some "pass")).session_id, Json.str "zwrt_web",
               Json.str "web_login",
               Json.obj [("password",
                 Json.str (loginDigest shaW "pass" "ab12"))]])]] :=
  (c5_login_digest shaW).2.2 (mkClient "h" (some "pass"))
    (.ok (.arr [.obj [("result",
      .arr [.num 0, .obj [("zte_web_sault", .str "ab12")]])]]))
    TResp.fail "pass" "ab12" [("zte_web_sault", Json.str "ab12")]
    rfl (by decide) rfl rfl rfl

theorem asyncLogin_session (sha : String → String) (st : ClientState) (r1 r2 : TResp) :
    (asyncLogin sha st r1 r2).2.session_id = st.session_id
    ∨ ((asyncLogin sha st r1 r2).1 = true
        ∧ ∃ ro : List (String × Json),
            parseSingleResponse r2 = some (Json.obj ro)
            ∧ isCode0 (Json.olookup ro "result") = true
            ∧ (asyncLogin sha st r1 r2).2.session_id =
                (Json.olookup ro "ubus_rpc_session").getD st.session_id) := by
  unfold asyncLogin
  rcases hpw : st.password with _ | pw
  · exact Or.inl rfl
  · by_cases hpe : (pw == "") = true
    · simp only [hpe, if_pos]
      exact Or.inl trivial
    · simp only [Bool.not_eq_true] at hpe
      simp only [hpe, Bool.false_eq_true, if_false]
      rcases hc1 : callApi st "zwrt_web" "web_login_info" none r1 with ⟨li, st1⟩
      have hs1 : st1.session_id = st.session_id := by
        have h : (callApi st "zwrt_web" "web_login_info" none r1).2.session_id =
            st.session_id := rfl
        rw [hc1] at h
        exact h
      rcases li with _ | info
      · exact Or.inl hs1
      · simp only
        split
        · exact Or.inl hs1
        · rcases hco : Json.pyContains info "zte_web_sault" with _ | cb
          · simp only [hco]
            exact Or.inl hs1
          · rcases cb
            · simp only [hco]
              exact Or.inl hs1
            · simp only [hco]
              rcases hgi : Json.getItem info "zte_web_sault" with _ | saltv
              · simp only [hgi]
                exact Or.inl hs1
              · simp only [hgi]
                match saltv with
                | .null | .bool _ | .num _ | .arr _ | .obj _ => exact Or.inl hs1
                | .str salt =>
                  simp only
                  rcases hc2 : callApi st1 "zwrt_web" "web_login"
                      (some (Json.obj [("password",
                        Json.str (pyUpper (loginDigest sha pw salt)))])) r2 with ⟨lr, st2⟩
                  have hlr : parseSingleResponse r2 = lr := by
                    have h : (callApi st1 "zwrt_web" "web_login"
                        (some (Json.obj [("password",
                          Json.str (pyUpper (loginDigest sha pw salt)))])) r2).1 =
                        parseSingleResponse r2 := rfl
                    rw [hc2] at h
                    exact h.symm
                  have hs2 : st2.session_id = st.session_id := by
                    have h : (callApi st1 "zwrt_web" "web_login"
                        (some (Json.obj [("password",
                          Json.str (pyUpper (loginDigest sha pw salt)))])) r2).2.session_id =
                        st1.session_id := rfl
                    rw [hc2] at h
                    exact h.trans hs1
                  rcases lr with _ | res
                  · exact Or.inl hs2
                  · simp only
                    split
                    · exact Or.inl hs2
                    · match res with
                      | .null | .bool _ | .num _ | .str _ | .arr _ => exact Or.inl hs2
                      | .obj ro =>
                        simp only
                        by_cases hcode : isCode0 (Json.olookup ro "result") = true
                        · simp only [hcode, if_true]
                          refine Or.inr ⟨trivial, ro, hlr, hcode, ?_⟩
                          rw [hs2]
                        · simp only [Bool.not_eq_true] at hcode
                          simp only [hcode, Bool.false_eq_true, if_false]
                          split
                          · exact Or.inl hs2
                          · split
                            · exact Or.inl hs2
                            · exact Or.inl hs2

theorem callApiBatch_session (st : ClientState)
    (calls : List (String × String × Option Json)) (r : TResp) :
    (callApiBatch st calls r).2.session_id = st.session_id
    ∨ ((callApiBatch st calls r).2.session_id = Json.str UNAUTHENTICATED_SESSION
        ∧ ∃ (data : List Json) (rs : List (Option Json)) (cnt : Nat),
            r = TResp.ok (Json.arr data) ∧ processItems data = some (rs, cnt)
            ∧ 2 ≤ cnt
            ∧ Json.pyEqStr st.session_id UNAUTHENTICATED_SESSION = false) := by
  have hsid := (buildRequests_fields st calls).2.2.2
  unfold callApiBatch
  rcases hbr : buildRequests st calls with ⟨reqs, st1⟩
  rw [hbr] at hsid
  rcases r with _ | body
  · exact Or.inl hsid
  · match body with
    | .null | .bool _ | .num _ | .str _ | .obj _ => exact Or.inl hsid
    | .arr data =>
      rcases hp : processItems data with _ | ⟨rs, cnt⟩
      · simp only [hp]
        exact Or.inl hsid
      · simp only [hp]
        by_cases hcond : 2 ≤ cnt
            ∧ Json.pyEqStr st1.session_id UNAUTHENTICATED_SESSION = false
        · rw [if_pos hcond]
          refine Or.inr ⟨rfl, data, rs, cnt, rfl, hp, hcond.1, ?_⟩
          rw [← hsid]
          exact hcond.2
        · rw [if_neg hcond]
          exact Or.inl hsid

theorem loginStep_session (sha : String → String) (st : ClientState) (r1 r2 : TResp) :
    (loginStep sha st r1 r2).1.session_id = st.session_id
    ∨ ∃ ro : List (String × Json),
        parseSingleResponse r2 = some (Json.obj ro)
        ∧ isCode0 (Json.olookup ro "result") = true
        ∧ (loginStep sha st r1 r2).1.session_id =
            (Json.olookup ro "ubus_rpc_session").getD st.session_id := by
  unfold loginStep
  split
  · rcases hl : asyncLogin sha st r1 r2 with ⟨b, st1⟩
    have h := asyncLogin_session sha st r1 r2
    rw [hl] at h
    simp only at h ⊢
    rcases h with h | ⟨_, ro, hp, hc, hs⟩
    · exact Or.inl h
    · exact Or.inr ⟨ro, hp, hc, hs⟩
  · exact Or.inl rfl

theorem asyncUpdate_session (sha : String → String) (st : ClientState)
    (r1 r2 r3 : TResp) :
    (asyncUpdate sha st r1 r2 r3).2.session_id = st.session_id
    ∨ (asyncUpdate sha st r1 r2 r3).2.session_id = Json.str UNAUTHENTICATED_SESSION
    ∨ ∃ ro : List (String × Json),
        parseSingleResponse r2 = some (Json.obj ro)
        ∧ isCode0 (Json.olookup ro "result") = true
        ∧ (asyncUpdate sha st r1 r2 r3).2.session_id =
            (Json.olookup ro "ubus_rpc_session").getD st.session_id := by
  unfold asyncUpdate
  rcases hls : loginStep sha st r1 r2 with ⟨st1, raised⟩
  have h1 := loginStep_session sha st r1 r2
  rw [hls] at h1
  simp only at h1
  have hst1 : st1.session_id = st.session_id
      ∨ ∃ ro : List (String × Json),
          parseSingleResponse r2 = some (Json.obj ro)
          ∧ isCode0 (Json.olookup ro "result") = true
          ∧ st1.session_id = (Json.olookup ro "ubus_rpc_session").getD st.session_id := h1
  rcases raised
  · simp only [Bool.false_eq_true, if_false]
    split
    · rcases hst1 with h | ⟨ro, hp, hc, hs⟩
      · exact Or.inl h
      · exact Or.inr (Or.inr ⟨ro, hp, hc, hs⟩)
    · rcases hb : callApiBatch st1 (updateCalls st1.session_id) r3 with ⟨results, st2⟩
      have h2 := callApiBatch_session st1 (updateCalls st1.session_id) r3
      rw [hb] at h2
      simp only at h2
      have hcomb : st2.session_id = st.session_id
          ∨ st2.session_id = Json.str UNAUTHENTICATED_SESSION
          ∨ ∃ ro : List (String × Json),
              parseSingleResponse r2 = some (Json.obj ro)
              ∧ isCode0 (Json.olookup ro "result") = true
              ∧ st2.session_id = (Json.olookup ro "ubus_rpc_session").getD st.session_id := by
        rcases h2 with h2 | ⟨h2u, -⟩
        · rcases hst1 with h | ⟨ro, hp, hc, hs⟩
          · exact Or.inl (h2.trans h)
          · exact Or.inr (Or.inr ⟨ro, hp, hc, h2.trans hs⟩)
        · exact Or.inr (Or.inl h2u)
      split
      · split
        · split
          · exact hcomb
          · exact hcomb
        · exact hcomb
      · exact hcomb
  · simp only [if_true]
    rcases hst1 with h | ⟨ro, hp, hc, hs⟩
    · exact Or.inl h
    · exact Or.inr (Or.inr ⟨ro, hp, hc, hs⟩)

/-- C10: every operation leaves `host`, `password` and `base_url` unchanged;
the session token is mutated in exactly two places — adopting the
`ubus_rpc_session` field on a login whose result code is Python-equal to 0,
and resetting to the unauthenticated sentinel by the batch expiry
heuristic; in particular `_call_api` (and `close`) never mutates the token,
whatever the response. -/
theorem c10_frame (sha : String → String) (st : ClientState) (op : Op)
    (ns meth : String) (params : Option Json)
    (calls : List (String × String × Option Json)) (r r1 r2 r3 : TResp) :
    ((applyOp sha st op).host = st.host
      ∧ (applyOp sha st op).password = st.password
      ∧ (applyOp sha st op).base_url = st.base_url)
    ∧ (callApi st ns meth params r).2.session_id = st.session_id
    ∧ closeClient st = st
    ∧ ((callApiBatch st calls r).2.session_id = st.session_id
        ∨ ((callApiBatch st calls r).2.session_id = Json.str UNAUTHENTICATED_SESSION
            ∧ ∃ (data : List Json) (rs : List (Option Json)) (cnt : Nat),
                r = TResp.ok (Json.arr data) ∧ processItems data = some (rs, cnt)
                ∧ 2 ≤ cnt
                ∧ Json.pyEqStr st.session_id UNAUTHENTICATED_SESSION = false))
    ∧ ((asyncLogin sha st r1 r2).2.session_id = st.session_id
        ∨ ((asyncLogin sha st r1 r2).1 = true
            ∧ ∃ ro : List (String × Json),
                parseSingleResponse r2 = some (Json.obj ro)
                ∧ isCode0 (Json.olookup ro "result") = true
                ∧ (asyncLogin sha st r1 r2).2.session_id =
                    (Json.olookup ro "ubus_rpc_session").getD st.session_id))
    ∧ ((asyncUpdate sha st r1 r2 r3).2.session_id = st.session_id
        ∨ (asyncUpdate sha st r1 r2 r3).2.session_id = Json.str UNAUTHENTICATED_SESSION
        ∨ ∃ ro : List (String × Json),
            parseSingleResponse r2 = some (Json.obj ro)
            ∧ isCode0 (Json.olookup ro "result") = true
            ∧ (asyncUpdate sha st r1 r2 r3).2.session_id =
                (Json.olookup ro "ubus_rpc_session").getD st.session_id) := by
  obtain ⟨hh, hp, hu, -⟩ := sentDelta_applyOp sha st op
  exact ⟨⟨hh, hp, hu⟩, rfl, rfl,
    callApiBatch_session st calls r,
    asyncLogin_session sha st r1 r2,
    asyncUpdate_session sha st r1 r2 r3⟩

theorem buildRequests_sent_rid (st : ClientState)
    (calls : List (String × String × Option Json)) :
    (buildRequests st calls).2.sent = st.sent ++ (buildRequests st calls).1
    ∧ (buildRequests st calls).2.request_id = st.request_id + calls.length := by
  induction calls generalizing st with
  | nil => simp [buildRequests]
  | cons c cs ih =>
    have h := ih (createRpcRequest st c.1 c.2.1 c.2.2).2
    refine ⟨?_, ?_⟩
    · rw [show (buildRequests st (c :: cs)).2 =
        (buildRequests (createRpcRequest st c.1 c.2.1 c.2.2).2 cs).2 from by
          simp [buildRequests]]
      rw [h.1]
      simp [buildRequests, createRpcRequest]
    · rw [show (buildRequests st (c :: cs)).2 =
        (buildRequests (createRpcRequest st c.1 c.2.1 c.2.2).2 cs).2 from by
          simp [buildRequests]]
      rw [h.2]
      simp [createRpcRequest]
      omega

theorem callApiBatch_state (st : ClientState)
    (calls : List (String × String × Option Json)) (r : TResp) :
    (callApiBatch st calls r).2.sent = (buildRequests st calls).2.sent
    ∧ (callApiBatch st calls r).2.request_id = (buildRequests st calls).2.request_id := by
  unfold callApiBatch
  rcases hbr : buildRequests st calls with ⟨reqs, st1⟩
  rcases r with _ | body
  · exact ⟨rfl, rfl⟩
  · match body with
    | .null | .bool _ | .num _ | .str _ | .obj _ => exact ⟨rfl, rfl⟩
    | .arr data =>
      rcases hp : processItems data with _ | ⟨rs, cnt⟩
      · simp only [hp]
        refine ⟨?_, ?_⟩ <;> first | rfl | trivial
      · simp only [hp]
        split
        · refine ⟨?_, ?_⟩ <;> first | rfl | trivial
        · refine ⟨?_, ?_⟩ <;> first | rfl | trivial

theorem updateCalls_length (sid : Json) : (updateCalls sid).length = 5 := by
  cases h : Json.pyEqStr sid UNAUTHENTICATED_SESSION <;> simp [updateCalls, h]

/-- C7: the batch issued by `async_update` consists of exactly these five
descriptors, in this order: router status (the `no_auth` method variant
exactly when the session token equals the unauthenticated sentinel after
the optional login step), network info, data usage with fixed parameters
`source_module="web"`, `cid=1`, `type=4`, user/device count, and the WLAN
report; and one refresh performs exactly one batch: when the login step is
skipped or fails without raising, the requests sent by `async_update`
beyond those of the login step are exactly the five envelopes of these
descriptors, and the request counter advances by exactly 5. -/
theorem c7_refresh_batch (sha : String → String) (st : ClientState) (sid : Json)
    (r1 r2 r3 : TResp) :
    (updateCalls sid =
      [("zwrt_router.api",
         (if Json.pyEqStr sid UNAUTHENTICATED_SESSION then "router_get_status_no_auth"
          else "router_get_status"), none),
       ("zte_nwinfo_api", "nwinfo_get_netinfo", none),
       ("zwrt_data", "get_wwandst",
         some (Json.obj [("source_module", Json.str "web"), ("cid", Json.num 1),
                         ("type", Json.num 4)])),
       ("zwrt_router.api", "router_get_user_list_num", none),
       ("zwrt_wlan", "report", none)])
    ∧ (updateCalls sid).length = 5
    ∧ ((loginStep sha st r1 r2).2 = false →
        (loginStep sha st r1 r2).1.session_id.isStr = true →
        (asyncUpdate sha st r1 r2 r3).2.sent =
          (loginStep sha st r1 r2).1.sent ++
            (buildRequests (loginStep sha st r1 r2).1
              (updateCalls (loginStep sha st r1 r2).1.session_id)).1
        ∧ (asyncUpdate sha st r1 r2 r3).2.request_id =
            (loginStep sha st r1 r2).1.request_id + 5) := by
  refine ⟨?_, updateCalls_length sid, ?_⟩
  · cases h : Json.pyEqStr sid UNAUTHENTICATED_SESSION <;> simp [updateCalls, h]
  · intro hraise hstr
    unfold asyncUpdate
    rcases hls : loginStep sha st r1 r2 with ⟨st1, raised⟩
    rw [hls] at hraise hstr
    simp only at hraise hstr
    subst hraise
    simp only [Bool.false_eq_true, if_false, hstr, Bool.not_true]
    rcases hb : callApiBatch st1 (updateCalls st1.session_id) r3 with ⟨results, st2⟩
    have hstate := callApiBatch_state st1 (updateCalls st1.session_id) r3
    rw [hb] at hstate
    simp only at hstate
    have hsr := buildRequests_sent_rid st1 (updateCalls st1.session_id)
    have hsent : st2.sent = st1.sent ++
        (buildRequests st1 (updateCalls st1.session_id)).1 := by
      rw [hstate.1, hsr.1]
    have hrid : st2.request_id = st1.request_id + 5 := by
      rw [hstate.2, hsr.2, updateCalls_length]
    split
    · split
      · split
        · exact ⟨hsent, hrid⟩
        · exact ⟨hsent, hrid⟩
      · exact ⟨hsent, hrid⟩
    · exact ⟨hsent, hrid⟩

/-- Witness for C7 with no password configured (login step skipped). -/
theorem c7_refresh_batch_witness :
    (asyncUpdate shaW (mkClient "h" none) TResp.fail TResp.fail TResp.fail).2.sent =
      (loginStep shaW (mkClient "h" none) TResp.fail TResp.fail).1.sent ++
        (buildRequests (loginStep shaW (mkClient "h" none) TResp.fail TResp.fail).1
          (updateCalls
            (loginStep shaW (mkClient "h" none) TResp.fail TResp.fail).1.session_id)).1
    ∧ (asyncUpdate shaW (mkClient "h" none) TResp.fail TResp.fail
        TResp.fail).2.request_id =
        (loginStep shaW (mkClient "h" none) TResp.fail TResp.fail).1.request_id + 5 :=
  (c7_refresh_batch shaW (mkClient "h" none) Json.null TResp.fail TResp.fail
    TResp.fail).2.2 rfl rfl

theorem asyncLogin_fail (sha : String → String) (st : ClientState) :
    (asyncLogin sha st TResp.fail TResp.fail).1 = false
    ∧ (asyncLogin sha st TResp.fail TResp.fail).2.session_id = st.session_id := by
  unfold asyncLogin
  rcases hpw : st.password with _ | pw
  · exact ⟨rfl, rfl⟩
  · by_cases hpe : (pw == "") = true
    · simp only [hpe, if_pos]
      refine ⟨?_, ?_⟩ <;> first | rfl | trivial
    · simp only [Bool.not_eq_true] at hpe
      simp only [hpe, Bool.false_eq_true, if_false]
      refine ⟨?_, ?_⟩ <;> first | rfl | trivial

theorem loginStep_fail (sha : String → String) (st : ClientState) :
    (loginStep sha st TResp.fail TResp.fail).2 = false
    ∧ (loginStep sha st TResp.fail TResp.fail).1.session_id = st.session_id := by
  unfold loginStep
  split
  · rcases hl : asyncLogin sha st TResp.fail TResp.fail with ⟨b, st1⟩
    have ha := asyncLogin_fail sha st
    rw [hl] at ha
    simp only at ha
    simp only [ha.1, Bool.false_and]
    refine ⟨?_, ?_⟩ <;> first | exact ha.2 | rfl | trivial
  · exact ⟨rfl, rfl⟩

/-- C3 (amended): when every transport operation fails, `async_update`
returns (does not raise) the Snapshot with exactly the five keys
`router_status`, `network_info`, `data_usage`, `device_info`, `wlan_info`,
all mapped to the empty mapping; and in general `async_update` returns a
five-key Snapshot without raising provided the login step completes with a
string token and the batch call yields at least five results whose
data-usage entry is a mapping whenever truthy.  (As the counterexample
shows, a response array with fewer than five items makes `async_update`
raise an `IndexError`, so the claim's unconditional "never raises" does
not hold.) -/
theorem c3_refresh_total_amended (sha : String → String) (st : ClientState)
    (r1 r2 r3 : TResp) (s : String) :
    (st.session_id = Json.str s →
      (asyncUpdate sha st TResp.fail TResp.fail TResp.fail).1 =
        Except.ok (Json.obj
          [("router_status", Json.obj []), ("network_info", Json.obj []),
           ("data_usage", Json.obj []), ("device_info", Json.obj []),
           ("wlan_info", Json.obj [])]))
    ∧ ((loginStep sha st r1 r2).2 = false →
        (loginStep sha st r1 r2).1.session_id.isStr = true →
        ∀ (a b c d e : Option Json) (rest : List (Option Json)),
          (callApiBatch (loginStep sha st r1 r2).1
            (updateCalls (loginStep sha st r1 r2).1.session_id) r3).1 =
            a :: b :: c :: d :: e :: rest →
          (∀ j : Json, c = some j → j.pyTruthy = true → j.isObj = true) →
          (asyncUpdate sha st r1 r2 r3).1 = Except.ok (mkSnapshot a b c d e)
          ∧ Json.keys (mkSnapshot a b c d e) =
              ["router_status", "network_info", "data_usage", "device_info",
               "wlan_info"]) := by
  constructor
  · intro hsid
    unfold asyncUpdate
    rcases hls : loginStep sha st TResp.fail TResp.fail with ⟨st1, raised⟩
    have hlf := loginStep_fail sha st
    rw [hls] at hlf
    simp only at hlf
    obtain ⟨hr, hs⟩ := hlf
    subst hr
    simp only [Bool.false_eq_true, if_false]
    have hstr : st1.session_id.isStr = true := by
      rw [hs, hsid]
      rfl
    simp only [hstr, Bool.not_true, Bool.false_eq_true, if_false]
    rcases hb : callApiBatch st1 (updateCalls st1.session_id) TResp.fail
      with ⟨results, st2⟩
    have hres : results = List.replicate (updateCalls st1.session_id).length none := by
      have h : (callApiBatch st1 (updateCalls st1.session_id) TResp.fail).1 =
          List.replicate (updateCalls st1.session_id).length none := by
        unfold callApiBatch
        rcases hbr : buildRequests st1 (updateCalls st1.session_id) with ⟨reqs, stx⟩
        rfl
      rw [hb] at h
      exact h
    rw [updateCalls_length st1.session_id] at hres
    subst hres
    rfl
  · intro hraise hstr a b c d e rest hres hC
    unfold asyncUpdate
    rcases hls : loginStep sha st r1 r2 with ⟨st1, raised⟩
    rw [hls] at hraise hstr hres
    simp only at hraise hstr hres
    subst hraise
    simp only [Bool.false_eq_true, if_false, hstr, Bool.not_true]
    rcases hb : callApiBatch st1 (updateCalls st1.session_id) r3 with ⟨results, st2⟩
    rw [hb] at hres
    simp only at hres
    subst hres
    rcases c with _ | j
    · exact ⟨rfl, rfl⟩
    · have hCj := hC j rfl
      by_cases hT : j.pyTruthy = true
      · have hO := hCj hT
        simp only [hT, hO, Bool.not_true, Bool.and_false, Bool.false_eq_true, if_false]
        refine ⟨?_, ?_⟩ <;> first | rfl | trivial
      · simp only [Bool.not_eq_true] at hT
        simp only [hT, Bool.false_and, Bool.false_eq_true, if_false]
        refine ⟨?_, ?_⟩ <;> first | rfl | trivial

/-- C3 counterexample: with no password and a batch exchange answering a
well-formed but empty JSON array, `async_update` raises (`IndexError` at
`results[0]`) instead of returning a Snapshot. -/
theorem c3_counterexample :
    (asyncUpdate shaW (mkClient "h" none) TResp.fail TResp.fail
      (TResp.ok (Json.arr []))).1 = Except.error () := rfl

/-- Witness for C3 (amended): the all-transport-failure scenario returns
the all-empty five-key Snapshot. -/
theorem c3_refresh_total_amended_witness :
    (asyncUpdate shaW (mkClient "h" none) TResp.fail TResp.fail TResp.fail).1 =
      Except.ok (Json.obj
        [("router_status", Json.obj []), ("network_info", Json.obj []),
         ("data_usage", Json.obj []), ("device_info", Json.obj []),
         ("wlan_info", Json.obj [])]) :=
  (c3_refresh_total_amended shaW (mkClient "h" none) TResp.fail TResp.fail
    TResp.fail UNAUTHENTICATED_SESSION).1 rfl

/-- A `web_login` exchange with result code `0` whose `ubus_rpc_session`
field is the (non-string) JSON number `123`. -/
def r2num : TResp :=
  .ok (.arr [.obj [("result",
    .arr [.num 0, .obj [("result", .num 0),
                        ("ubus_rpc_session", .num 123)]])]])

/-- C7 counterexample: a refresh whose login succeeds with code `0` but
adopts a non-string `ubus_rpc_session` (here the number `123`) raises
`TypeError` at `self.session_id[:8]` (line 268) before the batch call at
line 287 and therefore issues no batch at all: `async_update` escapes with
an exception, only the login's two envelopes were ever built (the request
log grew by 2, not 7), and the request counter advanced by 2, not 7 — so
"every refresh issues exactly one batch of five descriptors" is false as
stated. -/
theorem c7_counterexample :
    (asyncUpdate shaW (mkClient "h" (some "pw")) r1C4 r2num TResp.fail).1 =
      Except.error ()
    ∧ (asyncUpdate shaW (mkClient "h" (some "pw")) r1C4 r2num
        TResp.fail).2.sent.length = 2
    ∧ (asyncUpdate shaW (mkClient "h" (some "pw")) r1C4 r2num
        TResp.fail).2.request_id = 3 :=
  ⟨rfl, rfl, rfl⟩
